import Mathlib

/-!
Shallow embedding of the Gujarat LandChain on-chain core: the treasury
registry (land-parcel registration, verification, NFT minting, ownership
update), the freeze authority (time-locked freeze/thaw of a minted token),
and the bridge ledger (two-phase cross-chain transfer records).

Machine integers are modelled as Nat (u64) and Int (i64), with wraparound
applied exactly where the Rust source performs unchecked arithmetic on a
fixed-width integer.  Public keys are opaque and modelled as Nat.  Byte
strings are modelled as List Nat.  A handler returns an Outcome: its own
error codes, a system-level failure (failed CPI call or an account that
already exists at an init address), or a panic (out-of-bounds slice).
-/

/-- Wraparound of unsigned 64-bit arithmetic: plain Rust u64 addition and
multiplication reduce modulo two to the 64. -/
def wrap64 (n : Nat) : Nat := n % 18446744073709551616

/-- Wraparound of signed 64-bit arithmetic, mapping an Int to the
representative in the i64 range. -/
def wrapI64 (n : Int) : Int :=
  (n + 9223372036854775808) % 18446744073709551616 - 9223372036854775808

/-- Result of one instruction handler: success with a value, a program
error code, a system-level error (failed CPI or account-init collision, both
outside the program error enum), or a runtime panic. -/
inductive Outcome (ε α : Type) where
  | ok (a : α)
  | err (e : ε)
  | sysErr
  | panicked
deriving DecidableEq

/-- Models writing bytes into a zero-initialised fixed array of size n via
copy_from_slice, for inputs that fit (the panic case is handled at the call
site). -/
def padTo (n : Nat) (bs : List Nat) : List Nat :=
  bs ++ List.replicate (n - bs.length) 0

namespace ulpin_treasury

/-- TreasuryState singleton account. -/
structure Treasury where
  authority : Nat
  treasury_bump : Nat
  total_fees_collected : Nat
  land_parcel_count : Nat
  is_active : Bool
deriving DecidableEq

/-- LandParcel account (ParcelRecord of the spec). -/
structure LandParcel where
  ulpin_id : List Nat
  area_sqm : Nat
  district : List Nat
  taluka : List Nat
  village : List Nat
  owner : Nat
  registration_timestamp : Int
  is_verified : Bool
  nft_minted : Bool
  freeze_start_timestamp : Option Int
  freeze_duration : Option Int
deriving DecidableEq

/-- Error codes of the treasury program. -/
inductive ErrorCode where
  | InvalidULPINLength
  | InvalidArea
  | InvalidMetadataURI
  | NFTAlreadyMinted
  | LandNotVerified
  | AlreadyVerified
  | NFTNotMinted
deriving DecidableEq

/-- The bytes of the string used as the PDA domain tag for parcels. -/
def landParcelTag : List Nat := [108, 97, 110, 100, 95, 112, 97, 114, 99, 101, 108]

/-- Seed material of the parcel PDA as written in the RegisterLandParcel
accounts struct: the domain tag together with the slice of the FIRST 32
bytes of the identifier.  Slicing a shorter identifier panics, modelled as
none. -/
def parcelSeeds (ulpin_id : List Nat) : Option (List Nat × List Nat) :=
  if 32 ≤ ulpin_id.length then some (landParcelTag, ulpin_id.take 32)
  else none

/-- register_land_parcel.  Account validation derives the PDA first (a
panic when the identifier is shorter than 32 bytes, since the seed slice is
out of bounds); then the two require checks run; then the handler copies
the location labels into 32-byte arrays (a panic when a label is longer
than 32 bytes); finally the record is written and the parcel counter is
incremented with plain u64 addition. -/
def register_land_parcel (treasury : Treasury) (ulpin_id : List Nat)
    (area_sqm : Nat) (district taluka village : List Nat)
    (owner_pubkey : Nat) (now : Int) :
    Outcome ErrorCode (Treasury × LandParcel) :=
  if ulpin_id.length < 32 then .panicked
  else if 64 < ulpin_id.length then .err .InvalidULPINLength
  else if area_sqm = 0 then .err .InvalidArea
  else if 32 < district.length ∨ 32 < taluka.length ∨ 32 < village.length then .panicked
  else
    .ok ({ treasury with land_parcel_count := wrap64 (treasury.land_parcel_count + 1) },
      { ulpin_id := padTo 64 ulpin_id
        area_sqm := area_sqm
        district := padTo 32 district
        taluka := padTo 32 taluka
        village := padTo 32 village
        owner := owner_pubkey
        registration_timestamp := now
        is_verified := false
        nft_minted := false
        freeze_start_timestamp := none
        freeze_duration := none })

/-- Result of a successful mint: the updated treasury and parcel, and the
amount actually moved from the payer to treasury custody by the token
transfer CPI. -/
structure MintResult where
  treasury : Treasury
  parcel : LandParcel
  fee_transferred : Nat
deriving DecidableEq

/-- mint_land_nft.  Checks metadata length, double-mint and verification;
computes the fee with plain u64 multiplication and addition (wrapping);
performs the fee transfer CPI (its success is an input of the model; on
failure the handler returns before any mutation); then flips nft_minted and
adds the fee to the accumulator with plain u64 addition. -/
def mint_land_nft (treasury : Treasury) (land_parcel : LandParcel)
    (metadata_uri : List Nat) (transfer_ok : Bool) :
    Outcome ErrorCode MintResult :=
  if 200 < metadata_uri.length then .err .InvalidMetadataURI
  else if land_parcel.nft_minted = true then .err .NFTAlreadyMinted
  else if land_parcel.is_verified = false then .err .LandNotVerified
  else
    let base_fee : Nat := 100000
    let area_fee : Nat := wrap64 (land_parcel.area_sqm * 10)
    let total_fee : Nat := wrap64 (base_fee + area_fee)
    if transfer_ok = false then .sysErr
    else
      .ok { treasury := { treasury with
              total_fees_collected := wrap64 (treasury.total_fees_collected + total_fee) }
            parcel := { land_parcel with nft_minted := true }
            fee_transferred := total_fee }

/-- verify_land_parcel: rejects an already verified parcel, otherwise sets
is_verified. -/
def verify_land_parcel (land_parcel : LandParcel) :
    Outcome ErrorCode LandParcel :=
  if land_parcel.is_verified = true then .err .AlreadyVerified
  else .ok { land_parcel with is_verified := true }

/-- OwnershipTransferred event. -/
structure OwnershipTransferred where
  ulpin_id : List Nat
  previous_owner : Nat
  new_owner : Nat
  transfer_timestamp : Int
deriving DecidableEq

/-- update_land_ownership.  The source assigns the new owner to the record
FIRST and only then builds the event, reading the previous_owner field from
the already mutated record; the embedding mirrors that order, so the event
carries the updated owner. -/
def update_land_ownership (land_parcel : LandParcel) (ulpin_id : List Nat)
    (new_owner : Nat) (now : Int) :
    Outcome ErrorCode (LandParcel × OwnershipTransferred) :=
  if land_parcel.is_verified = false then .err .LandNotVerified
  else if land_parcel.nft_minted = false then .err .NFTNotMinted
  else
    let updated := { land_parcel with owner := new_owner }
    .ok (updated,
      { ulpin_id := ulpin_id
        previous_owner := updated.owner
        new_owner := new_owner
        transfer_timestamp := now })

end ulpin_treasury

namespace ulpin_freeze

/-- Error codes of the freeze module. -/
inductive ErrorCode where
  | LandNotVerified
  | NFTNotMinted
  | FreezePeriodNotExpired
deriving DecidableEq

/-- freeze_land_nft: requires the parcel verified and minted, records the
freeze start (now) and the requested duration, then issues the freeze CPI
(whose success is an input of the model; the hosting runtime discards the
staged mutation when the CPI fails). -/
def freeze_land_nft (land_parcel : ulpin_treasury.LandParcel)
    (duration_seconds : Int) (now : Int) (cpi_ok : Bool) :
    Outcome ErrorCode ulpin_treasury.LandParcel :=
  if land_parcel.is_verified = false then .err .LandNotVerified
  else if land_parcel.nft_minted = false then .err .NFTNotMinted
  else if cpi_ok = false then .sysErr
  else .ok { land_parcel with
    freeze_start_timestamp := some now
    freeze_duration := some duration_seconds }

/-- thaw_land_nft: requires the parcel verified and minted; defaults absent
freeze fields to zero; requires now strictly greater than the i64 sum of
freeze start and duration; on success (after the thaw CPI) clears both
freeze fields. -/
def thaw_land_nft (land_parcel : ulpin_treasury.LandParcel) (now : Int)
    (cpi_ok : Bool) : Outcome ErrorCode ulpin_treasury.LandParcel :=
  if land_parcel.is_verified = false then .err .LandNotVerified
  else if land_parcel.nft_minted = false then .err .NFTNotMinted
  else
    let freeze_start := land_parcel.freeze_start_timestamp.getD 0
    let freeze_duration := land_parcel.freeze_duration.getD 0
    if now ≤ wrapI64 (freeze_start + freeze_duration) then
      .err .FreezePeriodNotExpired
    else if cpi_ok = false then .sysErr
    else .ok { land_parcel with
      freeze_start_timestamp := none
      freeze_duration := none }

end ulpin_freeze

namespace ulpin_bridge

/-- Transfer status enum. -/
inductive TransferStatus where
  | Pending
  | Completed
  | Failed
deriving DecidableEq

/-- Bridge singleton account. -/
structure Bridge where
  authority : Nat
  bridge_bump : Nat
  total_transfers : Nat
  is_active : Bool
deriving DecidableEq

/-- CrossChainTransferData account (TransferRecord of the spec). -/
structure CrossChainTransferData where
  amount : Nat
  sender : Nat
  timestamp : Int
  status : TransferStatus
  confirmation_timestamp : Option Int
deriving DecidableEq

/-- Error codes of the bridge program. -/
inductive ErrorCode where
  | InvalidAmount
  | TransferNotPending
deriving DecidableEq

/-- cross_chain_transfer: rejects a zero amount; otherwise fills the
freshly initialised record (Pending, no confirmation timestamp) and bumps
the transfer counter with plain u64 addition. -/
def cross_chain_transfer (bridge : Bridge) (amount : Nat) (sender : Nat)
    (now : Int) : Outcome ErrorCode (Bridge × CrossChainTransferData) :=
  if amount = 0 then .err .InvalidAmount
  else
    .ok ({ bridge with total_transfers := wrap64 (bridge.total_transfers + 1) },
      { amount := amount
        sender := sender
        timestamp := now
        status := .Pending
        confirmation_timestamp := none })

/-- confirm_transfer: requires Pending, then sets Completed and stamps the
confirmation time. -/
def confirm_transfer (transfer : CrossChainTransferData) (now : Int) :
    Outcome ErrorCode CrossChainTransferData :=
  if transfer.status = TransferStatus.Pending then
    .ok { transfer with
      status := .Completed
      confirmation_timestamp := some now }
  else .err .TransferNotPending

/-- One step of the bridge record lifecycle: creation by
cross_chain_transfer on a not-yet-existing record, or confirmation of an
existing one. -/
inductive TransferStep :
    Option CrossChainTransferData → Option CrossChainTransferData → Prop where
  | create (bridge : Bridge) (amount sender : Nat) (now : Int)
      (b2 : Bridge) (r : CrossChainTransferData) :
      cross_chain_transfer bridge amount sender now = .ok (b2, r) →
      TransferStep none (some r)
  | confirm (r r2 : CrossChainTransferData) (now : Int) :
      confirm_transfer r now = .ok r2 →
      TransferStep (some r) (some r2)

/-- Bridge record states reachable from nonexistence by the modelled
operations. -/
inductive TransferReachable : Option CrossChainTransferData → Prop where
  | init : TransferReachable none
  | step (s s2 : Option CrossChainTransferData) :
      TransferReachable s → TransferStep s s2 → TransferReachable s2

end ulpin_bridge

/-- Error of any core operation: an error code of the treasury program or
of the freeze module. -/
inductive CoreErr where
  | treasury (e : ulpin_treasury.ErrorCode)
  | freeze (e : ulpin_freeze.ErrorCode)
deriving DecidableEq

/-- Joint state the core operations act on: the treasury singleton and the
(possibly not yet created) parcel record at one fixed parcel address. -/
structure CoreState where
  treasury : ulpin_treasury.Treasury
  parcel : Option ulpin_treasury.LandParcel
deriving DecidableEq

/-- One invocation of a core instruction, with its arguments and the
environment inputs it reads (clock value, CPI outcome). -/
inductive CoreOp where
  | register (ulpin_id : List Nat) (area_sqm : Nat)
      (district taluka village : List Nat) (owner : Nat) (now : Int)
  | verify
  | mint (metadata_uri : List Nat) (transfer_ok : Bool)
  | updateOwner (ulpin_id : List Nat) (new_owner : Nat) (now : Int)
  | freezeNft (duration : Int) (now : Int) (cpi_ok : Bool)
  | thawNft (now : Int) (cpi_ok : Bool)

/-- Lift a treasury-program outcome into the core outcome, mapping the
success value into a core state. -/
def liftT {A : Type} (f : A -> CoreState) :
    Outcome ulpin_treasury.ErrorCode A -> Outcome CoreErr CoreState
  | .ok a => .ok (f a)
  | .err e => .err (.treasury e)
  | .sysErr => .sysErr
  | .panicked => .panicked

/-- Lift a freeze-module outcome into the core outcome, mapping the
success value into a core state. -/
def liftF {A : Type} (f : A -> CoreState) :
    Outcome ulpin_freeze.ErrorCode A -> Outcome CoreErr CoreState
  | .ok a => .ok (f a)
  | .err e => .err (.freeze e)
  | .sysErr => .sysErr
  | .panicked => .panicked

/-- Apply one core operation to the joint state.  Registration requires
the parcel account not to exist yet (the init constraint rejects an
existing account at the derived address, a system-level error); every other
parcel operation requires it to exist. -/
def applyOp : CoreOp -> CoreState -> Outcome CoreErr CoreState
  | .register id area d t v ow now, s =>
    match s.parcel with
    | some _ => .sysErr
    | none => liftT (fun r => ⟨r.1, some r.2⟩)
        (ulpin_treasury.register_land_parcel s.treasury id area d t v ow now)
  | .verify, s =>
    match s.parcel with
    | none => .sysErr
    | some p => liftT (fun p2 => ⟨s.treasury, some p2⟩)
        (ulpin_treasury.verify_land_parcel p)
  | .mint uri tok, s =>
    match s.parcel with
    | none => .sysErr
    | some p => liftT (fun r => ⟨r.treasury, some r.parcel⟩)
        (ulpin_treasury.mint_land_nft s.treasury p uri tok)
  | .updateOwner id no now, s =>
    match s.parcel with
    | none => .sysErr
    | some p => liftT (fun r => ⟨s.treasury, some r.1⟩)
        (ulpin_treasury.update_land_ownership p id no now)
  | .freezeNft dur now c, s =>
    match s.parcel with
    | none => .sysErr
    | some p => liftF (fun p2 => ⟨s.treasury, some p2⟩)
        (ulpin_freeze.freeze_land_nft p dur now c)
  | .thawNft now c, s =>
    match s.parcel with
    | none => .sysErr
    | some p => liftF (fun p2 => ⟨s.treasury, some p2⟩)
        (ulpin_freeze.thaw_land_nft p now c)

/-- ParcelRecord invariant of the spec: a minted parcel is verified, the
two freeze fields are both present or both absent, and they may be present
only when both lifecycle flags are set. -/
def ParcelInv (p : ulpin_treasury.LandParcel) : Prop :=
  (p.nft_minted = true → p.is_verified = true) ∧
  (p.freeze_start_timestamp.isSome = p.freeze_duration.isSome) ∧
  (p.freeze_start_timestamp.isSome = true →
    p.is_verified = true ∧ p.nft_minted = true)

instance (p : ulpin_treasury.LandParcel) : Decidable (ParcelInv p) := by
  unfold ParcelInv; infer_instance

/-- Concrete fixtures used by the closed evaluation theorems below. -/
def treasuryZero : ulpin_treasury.Treasury :=
  { authority := 1
    treasury_bump := 255
    total_fees_collected := 0
    land_parcel_count := 1
    is_active := true }

/-- Treasury whose fee accumulator sits two lamports below the u64 maximum
(reachable, since every fee is even). -/
def treasuryHigh : ulpin_treasury.Treasury :=
  { treasuryZero with total_fees_collected := 18446744073709551614 }

/-- Verified, not yet minted parcel of 500 square meters. -/
def parcel500 : ulpin_treasury.LandParcel :=
  { ulpin_id := padTo 64 (List.replicate 32 65)
    area_sqm := 500
    district := padTo 32 [71]
    taluka := padTo 32 [72]
    village := padTo 32 [73]
    owner := 1
    registration_timestamp := 0
    is_verified := true
    nft_minted := false
    freeze_start_timestamp := none
    freeze_duration := none }

/-- Verified, not yet minted parcel whose area is two to the 61, large
enough that the per-unit fee multiplication overflows u64. -/
def parcelHuge : ulpin_treasury.LandParcel :=
  { parcel500 with area_sqm := 2305843009213693952 }

/-- Verified and minted parcel owned by key 1. -/
def parcelOwned : ulpin_treasury.LandParcel :=
  { parcel500 with nft_minted := true }

/-- Freshly registered parcel (no flags set). -/
def parcelRegistered : ulpin_treasury.LandParcel :=
  { parcel500 with is_verified := false }

/-- Verified and minted parcel frozen at time 0 for 3600 seconds. -/
def parcelFrozen : ulpin_treasury.LandParcel :=
  { parcelOwned with
    freeze_start_timestamp := some 0
    freeze_duration := some 3600 }

/-- Bridge singleton fixture. -/
def bridgeZero : ulpin_bridge.Bridge :=
  { authority := 9
    bridge_bump := 254
    total_transfers := 0
    is_active := true }

/-- The record cross_chain_transfer writes into a fresh transfer account. -/
def initRec (amount sender : Nat) (now : Int) :
    ulpin_bridge.CrossChainTransferData :=
  { amount := amount
    sender := sender
    timestamp := now
    status := .Pending
    confirmation_timestamp := none }

/-- The record confirm_transfer produces from a pending record created at
now, when confirmed at now2. -/
def confRec (amount sender : Nat) (now now2 : Int) :
    ulpin_bridge.CrossChainTransferData :=
  { initRec amount sender now with
    status := .Completed
    confirmation_timestamp := some now2 }

/-- The parcel record a successful registration writes. -/
def mkParcel (id : List Nat) (area : Nat) (d t v : List Nat) (ow : Nat)
    (now : Int) : ulpin_treasury.LandParcel :=
  { ulpin_id := padTo 64 id
    area_sqm := area
    district := padTo 32 d
    taluka := padTo 32 t
    village := padTo 32 v
    owner := ow
    registration_timestamp := now
    is_verified := false
    nft_minted := false
    freeze_start_timestamp := none
    freeze_duration := none }

/-!
Helper lemmas: inversion of each handler on a successful outcome, and the
identity of i64 wraparound inside the representable range.
-/

theorem wrapI64_eq_of_range (n : Int) (h1 : -9223372036854775808 ≤ n)
    (h2 : n < 9223372036854775808) : wrapI64 n = n := by
  unfold wrapI64
  have h3 : (0 : Int) ≤ n + 9223372036854775808 := by linarith
  have h4 : n + 9223372036854775808 < 18446744073709551616 := by linarith
  rw [Int.emod_eq_of_lt h3 h4]
  ring

theorem register_ok_shape {tr : ulpin_treasury.Treasury} {id : List Nat}
    {area : Nat} {d t v : List Nat} {ow : Nat} {now : Int}
    {tr2 : ulpin_treasury.Treasury} {p : ulpin_treasury.LandParcel}
    (h : ulpin_treasury.register_land_parcel tr id area d t v ow now = .ok (tr2, p)) :
    32 ≤ id.length ∧ id.length ≤ 64 ∧ 0 < area ∧
      d.length ≤ 32 ∧ t.length ≤ 32 ∧ v.length ≤ 32 ∧
      tr2 = { tr with land_parcel_count := wrap64 (tr.land_parcel_count + 1) } ∧
      p = mkParcel id area d t v ow now := by
  unfold ulpin_treasury.register_land_parcel at h
  split_ifs at h with h1 h2 h3 h4
  · simp only [Outcome.ok.injEq, Prod.mk.injEq] at h
    push_neg at h4
    refine ⟨by omega, by omega, by omega, h4.1, h4.2.1, h4.2.2, h.1.symm, ?_⟩
    rw [← h.2]
    rfl

theorem verify_ok_shape {p p2 : ulpin_treasury.LandParcel}
    (h : ulpin_treasury.verify_land_parcel p = .ok p2) :
    p.is_verified = false ∧ p2 = { p with is_verified := true } := by
  unfold ulpin_treasury.verify_land_parcel at h
  split_ifs at h with h1
  simp only [Outcome.ok.injEq] at h
  exact ⟨Bool.eq_false_iff.mpr h1, h.symm⟩

theorem mint_ok_shape {tr : ulpin_treasury.Treasury}
    {p : ulpin_treasury.LandParcel} {uri : List Nat} {tok : Bool}
    {r : ulpin_treasury.MintResult}
    (h : ulpin_treasury.mint_land_nft tr p uri tok = .ok r) :
    uri.length ≤ 200 ∧ p.nft_minted = false ∧ p.is_verified = true ∧
      tok = true ∧
      r.fee_transferred = wrap64 (100000 + wrap64 (p.area_sqm * 10)) ∧
      r.parcel = { p with nft_minted := true } ∧
      r.treasury = { tr with total_fees_collected := wrap64 (tr.total_fees_collected + r.fee_transferred) } := by
  simp only [ulpin_treasury.mint_land_nft] at h
  split_ifs at h with h1 h2 h3 h4
  simp only [Outcome.ok.injEq] at h
  refine ⟨by omega, Bool.eq_false_iff.mpr h2, ?_, ?_, ?_, ?_, ?_⟩
  · cases hv : p.is_verified
    · exact absurd hv h3
    · rfl
  · cases ht : tok
    · exact absurd ht h4
    · rfl
  · rw [← h]
  · rw [← h]
  · rw [← h]

theorem update_ok_shape {p : ulpin_treasury.LandParcel} {id : List Nat}
    {no : Nat} {now : Int} {p2 : ulpin_treasury.LandParcel}
    {ev : ulpin_treasury.OwnershipTransferred}
    (h : ulpin_treasury.update_land_ownership p id no now = .ok (p2, ev)) :
    p.is_verified = true ∧ p.nft_minted = true ∧
      p2 = { p with owner := no } ∧
      ev = { ulpin_id := id, previous_owner := no, new_owner := no,
             transfer_timestamp := now } := by
  simp only [ulpin_treasury.update_land_ownership] at h
  split_ifs at h with h1 h2
  simp only [Outcome.ok.injEq, Prod.mk.injEq] at h
  refine ⟨?_, ?_, h.1.symm, h.2.symm⟩
  · cases hv : p.is_verified
    · exact absurd hv h1
    · rfl
  · cases hm : p.nft_minted
    · exact absurd hm h2
    · rfl

theorem freeze_ok_shape {p : ulpin_treasury.LandParcel} {dur now : Int}
    {c : Bool} {p2 : ulpin_treasury.LandParcel}
    (h : ulpin_freeze.freeze_land_nft p dur now c = .ok p2) :
    p.is_verified = true ∧ p.nft_minted = true ∧
      p2 = { p with freeze_start_timestamp := some now,
                    freeze_duration := some dur } := by
  simp only [ulpin_freeze.freeze_land_nft] at h
  split_ifs at h with h1 h2 h3
  simp only [Outcome.ok.injEq] at h
  refine ⟨?_, ?_, h.symm⟩
  · cases hv : p.is_verified
    · exact absurd hv h1
    · rfl
  · cases hm : p.nft_minted
    · exact absurd hm h2
    · rfl

theorem thaw_ok_shape {p : ulpin_treasury.LandParcel} {now : Int} {c : Bool}
    {p2 : ulpin_treasury.LandParcel}
    (h : ulpin_freeze.thaw_land_nft p now c = .ok p2) :
    p.is_verified = true ∧ p.nft_minted = true ∧
      wrapI64 (p.freeze_start_timestamp.getD 0 + p.freeze_duration.getD 0) < now ∧
      p2 = { p with freeze_start_timestamp := none, freeze_duration := none } := by
  simp only [ulpin_freeze.thaw_land_nft] at h
  split_ifs at h with h1 h2 h3 h4
  simp only [Outcome.ok.injEq] at h
  refine ⟨?_, ?_, by omega, h.symm⟩
  · cases hv : p.is_verified
    · exact absurd hv h1
    · rfl
  · cases hm : p.nft_minted
    · exact absurd hm h2
    · rfl

/-!
Claim theorems.
-/


theorem liftT_ok {A : Type} {f : A → CoreState}
    {o : Outcome ulpin_treasury.ErrorCode A} {c : CoreState}
    (h : liftT f o = .ok c) : ∃ a, o = .ok a ∧ c = f a := by
  cases o with
  | ok a =>
    simp only [liftT, Outcome.ok.injEq] at h
    exact ⟨a, rfl, h.symm⟩
  | err e => exact Outcome.noConfusion h
  | sysErr => exact Outcome.noConfusion h
  | panicked => exact Outcome.noConfusion h

theorem liftF_ok {A : Type} {f : A → CoreState}
    {o : Outcome ulpin_freeze.ErrorCode A} {c : CoreState}
    (h : liftF f o = .ok c) : ∃ a, o = .ok a ∧ c = f a := by
  cases o with
  | ok a =>
    simp only [liftF, Outcome.ok.injEq] at h
    exact ⟨a, rfl, h.symm⟩
  | err e => exact Outcome.noConfusion h
  | sysErr => exact Outcome.noConfusion h
  | panicked => exact Outcome.noConfusion h

/-- Claim C7: every operation of the core (register, verify, mint, update
ownership, freeze, thaw) preserves the ParcelRecord invariant — a minted
parcel is verified, the freeze fields are both present or both absent and
may be populated only when both lifecycle flags are true — and never sets
a true is_verified or nft_minted flag back to false. -/
theorem claim_C7_parcel_invariant_preserved :
    ∀ (op : CoreOp) (s s2 : CoreState),
      applyOp op s = .ok s2 →
      (∀ p, s.parcel = some p → ParcelInv p) →
      ((∀ p, s2.parcel = some p → ParcelInv p) ∧
       (∀ p p2, s.parcel = some p → s2.parcel = some p2 →
         (p.is_verified = true → p2.is_verified = true) ∧
         (p.nft_minted = true → p2.nft_minted = true))) := by
  intro op s s2 h hinv
  cases op with
  | register id area d t v ow now =>
    obtain ⟨tr0, pOpt⟩ := s
    cases pOpt with
    | some p => exact Outcome.noConfusion h
    | none =>
      have h2 : liftT (fun r => (⟨r.1, some r.2⟩ : CoreState))
          (ulpin_treasury.register_land_parcel tr0 id area d t v ow now) = .ok s2 := h
      obtain ⟨⟨tr2, pnew⟩, hr, hs2⟩ := liftT_ok h2
      subst hs2
      obtain ⟨-, -, -, -, -, -, -, hpnew⟩ := register_ok_shape hr
      subst hpnew
      constructor
      · intro q hq
        cases Option.some.inj hq
        simp [ParcelInv, mkParcel]
      · intro q q2 hq _
        exact Option.noConfusion hq
  | verify =>
    obtain ⟨tr0, pOpt⟩ := s
    cases pOpt with
    | none => exact Outcome.noConfusion h
    | some p =>
      have h2 : liftT (fun p2 => (⟨tr0, some p2⟩ : CoreState))
          (ulpin_treasury.verify_land_parcel p) = .ok s2 := h
      obtain ⟨p2, hr, hs2⟩ := liftT_ok h2
      subst hs2
      obtain ⟨hvf, hp2⟩ := verify_ok_shape hr
      subst hp2
      obtain ⟨i1, i2, i3⟩ := hinv p rfl
      constructor
      · intro q hq
        cases Option.some.inj hq
        exact ⟨fun _ => rfl, i2, fun hs => ⟨rfl, (i3 hs).2⟩⟩
      · intro q q2 hq hq2
        cases Option.some.inj hq
        cases Option.some.inj hq2
        exact ⟨fun _ => rfl, fun hm => hm⟩
  | mint uri tok =>
    obtain ⟨tr0, pOpt⟩ := s
    cases pOpt with
    | none => exact Outcome.noConfusion h
    | some p =>
      have h2 : liftT (fun r => (⟨r.treasury, some r.parcel⟩ : CoreState))
          (ulpin_treasury.mint_land_nft tr0 p uri tok) = .ok s2 := h
      obtain ⟨r, hr, hs2⟩ := liftT_ok h2
      subst hs2
      obtain ⟨-, hm0, hv1, -, -, hrp, -⟩ := mint_ok_shape hr
      obtain ⟨i1, i2, i3⟩ := hinv p rfl
      constructor
      · intro q hq
        cases Option.some.inj hq
        rw [hrp]
        exact ⟨fun _ => hv1, i2, fun _ => ⟨hv1, rfl⟩⟩
      · intro q q2 hq hq2
        cases Option.some.inj hq
        cases Option.some.inj hq2
        refine ⟨fun hv => ?_, fun _ => ?_⟩
        · rw [hrp]; exact hv
        · rw [hrp]
  | updateOwner id no now =>
    obtain ⟨tr0, pOpt⟩ := s
    cases pOpt with
    | none => exact Outcome.noConfusion h
    | some p =>
      have h2 : liftT (fun r => (⟨tr0, some r.1⟩ : CoreState))
          (ulpin_treasury.update_land_ownership p id no now) = .ok s2 := h
      obtain ⟨⟨p2, ev⟩, hr, hs2⟩ := liftT_ok h2
      subst hs2
      obtain ⟨hv1, hm1, hp2, -⟩ := update_ok_shape hr
      subst hp2
      obtain ⟨i1, i2, i3⟩ := hinv p rfl
      constructor
      · intro q hq
        cases Option.some.inj hq
        exact ⟨fun _ => hv1, i2, fun hs => ⟨hv1, hm1⟩⟩
      · intro q q2 hq hq2
        cases Option.some.inj hq
        cases Option.some.inj hq2
        exact ⟨fun _ => hv1, fun _ => hm1⟩
  | freezeNft dur now c =>
    obtain ⟨tr0, pOpt⟩ := s
    cases pOpt with
    | none => exact Outcome.noConfusion h
    | some p =>
      have h2 : liftF (fun p2 => (⟨tr0, some p2⟩ : CoreState))
          (ulpin_freeze.freeze_land_nft p dur now c) = .ok s2 := h
      obtain ⟨p2, hr, hs2⟩ := liftF_ok h2
      subst hs2
      obtain ⟨hv1, hm1, hp2⟩ := freeze_ok_shape hr
      subst hp2
      constructor
      · intro q hq
        cases Option.some.inj hq
        exact ⟨fun _ => hv1, rfl, fun _ => ⟨hv1, hm1⟩⟩
      · intro q q2 hq hq2
        cases Option.some.inj hq
        cases Option.some.inj hq2
        exact ⟨fun _ => hv1, fun _ => hm1⟩
  | thawNft now c =>
    obtain ⟨tr0, pOpt⟩ := s
    cases pOpt with
    | none => exact Outcome.noConfusion h
    | some p =>
      have h2 : liftF (fun p2 => (⟨tr0, some p2⟩ : CoreState))
          (ulpin_freeze.thaw_land_nft p now c) = .ok s2 := h
      obtain ⟨p2, hr, hs2⟩ := liftF_ok h2
      subst hs2
      obtain ⟨hv1, hm1, -, hp2⟩ := thaw_ok_shape hr
      subst hp2
      constructor
      · intro q hq
        cases Option.some.inj hq
        exact ⟨fun _ => hv1, rfl, fun hs => Bool.noConfusion hs⟩
      · intro q q2 hq hq2
        cases Option.some.inj hq
        cases Option.some.inj hq2
        exact ⟨fun _ => hv1, fun _ => hm1⟩

/-- Witness for claim C7: verifying a freshly registered parcel satisfies
the hypotheses concretely and the invariant holds afterwards. -/
theorem claim_C7_witness :
    ParcelInv { parcelRegistered with is_verified := true } := by
  have h := claim_C7_parcel_invariant_preserved .verify
    ⟨treasuryZero, some parcelRegistered⟩
    ⟨treasuryZero, some { parcelRegistered with is_verified := true }⟩
    (by decide)
    (by intro p hp; cases Option.some.inj hp; decide)
  exact h.1 { parcelRegistered with is_verified := true } rfl

/-- Claim C3: for a verified and minted parcel frozen at time T with
duration D (with T + D inside the i64 range, where the i64 addition of the
source does not wrap), thaw_land_nft at current time now fails with
FreezePeriodNotExpired whenever now ≤ T + D, and whenever now > T + D it
succeeds (given a successful thaw CPI) and clears both freeze fields to
absent. -/
theorem claim_C3_thaw_window (p : ulpin_treasury.LandParcel) (T D now : Int)
    (hv : p.is_verified = true) (hm : p.nft_minted = true)
    (hs : p.freeze_start_timestamp = some T) (hd : p.freeze_duration = some D)
    (h1 : -9223372036854775808 ≤ T + D) (h2 : T + D < 9223372036854775808) :
    (now ≤ T + D →
      ulpin_freeze.thaw_land_nft p now true = .err .FreezePeriodNotExpired) ∧
    (T + D < now →
      ulpin_freeze.thaw_land_nft p now true =
        .ok { p with freeze_start_timestamp := none, freeze_duration := none }) := by
  have hw : wrapI64 (p.freeze_start_timestamp.getD 0 + p.freeze_duration.getD 0) = T + D := by
    rw [hs, hd]
    exact wrapI64_eq_of_range (T + D) h1 h2
  constructor
  · intro hle
    simp only [ulpin_freeze.thaw_land_nft, hv, hm, hw]
    norm_num
    omega
  · intro hlt
    simp only [ulpin_freeze.thaw_land_nft, hv, hm, hw]
    norm_num
    omega

/-- Witness for claim C3: with the parcel frozen at time 0 for 3600
seconds, thaw at 3600 fails with FreezePeriodNotExpired and thaw at 3601
succeeds and clears both freeze fields. -/
theorem claim_C3_witness :
    ulpin_freeze.thaw_land_nft parcelFrozen 3600 true =
      .err .FreezePeriodNotExpired ∧
    ulpin_freeze.thaw_land_nft parcelFrozen 3601 true =
      .ok { parcelFrozen with freeze_start_timestamp := none, freeze_duration := none } :=
  ⟨(claim_C3_thaw_window parcelFrozen 0 3600 3600 rfl rfl rfl rfl
      (by decide) (by decide)).1 (by decide),
   (claim_C3_thaw_window parcelFrozen 0 3600 3601 rfl rfl rfl rfl
      (by decide) (by decide)).2 (by decide)⟩

/-- Claim C2 (refuted, code bug): update_land_ownership on a verified and
minted parcel owned by key 1, transferring to key 2, succeeds but emits an
OwnershipTransferred event whose previous_owner field is 2 — the NEW owner,
because the source overwrites the owner field before building the event —
while the claim requires the pre-call owner 1. -/
theorem claim_C2_event_previous_owner_is_new_owner :
    ulpin_treasury.update_land_ownership parcelOwned [7] 2 99 =
      .ok ({ parcelOwned with owner := 2 },
        { ulpin_id := [7], previous_owner := 2, new_owner := 2,
          transfer_timestamp := 99 }) ∧
    parcelOwned.owner = 1 ∧ (2 : Nat) ≠ 1 := by
  exact ⟨rfl, rfl, by decide⟩

/-- Claim C1 (refuted, code bug): the mint fee is computed with plain
wrapping u64 arithmetic.  On a verified unminted parcel of area two to the
61, the multiplication area times 10 overflows u64 and mint_land_nft
silently charges the wrapped fee 4611686018427487904 — it neither equals
base plus area times per-unit fee, nor is it rejected, nor clamped to the
u64 maximum — and adds that wrapped amount to total_fees_collected. -/
theorem claim_C1_fee_arithmetic_wraps :
    ulpin_treasury.mint_land_nft treasuryZero parcelHuge [] true =
      .ok { treasury := { treasuryZero with total_fees_collected := 4611686018427487904 }
            parcel := { parcelHuge with nft_minted := true }
            fee_transferred := 4611686018427487904 } ∧
    (4611686018427487904 : Nat) ≠ 100000 + parcelHuge.area_sqm * 10 ∧
    (4611686018427487904 : Nat) ≠ 18446744073709551615 := by
  refine ⟨by decide, by decide, by decide⟩

/-- Claim C8 (refuted, code bug): total_fees_collected is updated with
plain wrapping u64 addition, so it can DECREASE: with the accumulator at
18446744073709551614 (two below the u64 maximum, a value reachable since
every fee is even), a successful mint of a 500 square meter parcel with fee
105000 wraps the accumulator around to 104998, strictly below its previous
value. -/
theorem claim_C8_fee_accumulator_can_decrease :
    ulpin_treasury.mint_land_nft treasuryHigh parcel500 [] true =
      .ok { treasury := { treasuryHigh with total_fees_collected := 104998 }
            parcel := { parcel500 with nft_minted := true }
            fee_transferred := 105000 } ∧
    (104998 : Nat) < treasuryHigh.total_fees_collected := by
  refine ⟨by decide, by decide⟩

/-- Claim C5: mint_land_nft is all-or-nothing.  A successful call requires
the fee-transfer CPI to have succeeded and moves exactly the computed fee
from the payer to treasury custody, flipping nft_minted and crediting the
accumulator by exactly that fee; when the transfer fails (or any earlier
validation fails) the handler produces no successor state, so nft_minted
and total_fees_collected are untouched. -/
theorem claim_C5_mint_all_or_nothing :
    ∀ (tr : ulpin_treasury.Treasury) (p : ulpin_treasury.LandParcel)
      (uri : List Nat) (tok : Bool) (r : ulpin_treasury.MintResult),
      (ulpin_treasury.mint_land_nft tr p uri tok = .ok r →
        tok = true ∧
        r.fee_transferred = wrap64 (100000 + wrap64 (p.area_sqm * 10)) ∧
        r.parcel = { p with nft_minted := true } ∧
        r.treasury = { tr with total_fees_collected := wrap64 (tr.total_fees_collected + r.fee_transferred) }) ∧
      (tok = false → ulpin_treasury.mint_land_nft tr p uri tok ≠ .ok r) := by
  intro tr p uri tok r
  constructor
  · intro h
    obtain ⟨-, -, -, htok, hfee, hp, htr⟩ := mint_ok_shape h
    exact ⟨htok, hfee, hp, htr⟩
  · intro htok h
    obtain ⟨-, -, -, htok2, -⟩ := mint_ok_shape h
    rw [htok] at htok2
    exact Bool.noConfusion htok2

/-- Witness for claim C5: minting the verified 500 square meter parcel
with a successful transfer charges exactly 105000 lamports. -/
theorem claim_C5_witness :
    ulpin_treasury.mint_land_nft treasuryZero parcel500 [] true =
      .ok { treasury := { treasuryZero with total_fees_collected := 105000 }
            parcel := { parcel500 with nft_minted := true }
            fee_transferred := 105000 } ∧
    (105000 : Nat) = wrap64 (100000 + wrap64 (parcel500.area_sqm * 10)) := by
  have h := (claim_C5_mint_all_or_nothing treasuryZero parcel500 [] true
    { treasury := { treasuryZero with total_fees_collected := 105000 }
      parcel := { parcel500 with nft_minted := true }
      fee_transferred := 105000 }).1 (by decide)
  exact ⟨by decide, h.2.1⟩

/-- Claim C6 counterexample: with a 5-byte identifier and area 0, the call
does not fail with the InvalidArea error the claim requires — the PDA seed
slice of the first 32 identifier bytes aborts first, so the outcome is a
panic. -/
theorem claim_C6_counterexample :
    ulpin_treasury.register_land_parcel treasuryZero (List.replicate 5 65) 0 [] [] [] 7 0 =
      .panicked ∧
    ulpin_treasury.register_land_parcel treasuryZero (List.replicate 5 65) 0 [] [] [] 7 0 ≠
      .err .InvalidArea := by
  exact ⟨by decide, by decide⟩

/-- Claim C6 (amended): register_land_parcel fails with InvalidULPINLength
(the source name of the InvalidIdentifierLength error) whenever the
identifier exceeds 64 bytes, regardless of the other arguments; it fails
with InvalidArea whenever area = 0 and the identifier is between 32 and 64
bytes (a shorter identifier panics in seed derivation before the checks);
and in either error case no parcel record is produced, so the parcel count
is unchanged. -/
theorem claim_C6_register_rejections :
    ∀ (tr : ulpin_treasury.Treasury) (id : List Nat) (area : Nat)
      (d t v : List Nat) (ow : Nat) (now : Int),
      (64 < id.length →
        ulpin_treasury.register_land_parcel tr id area d t v ow now =
          .err .InvalidULPINLength) ∧
      (32 ≤ id.length → id.length ≤ 64 → area = 0 →
        ulpin_treasury.register_land_parcel tr id area d t v ow now =
          .err .InvalidArea) ∧
      ((64 < id.length ∨ (32 ≤ id.length ∧ area = 0)) →
        ∀ r, ulpin_treasury.register_land_parcel tr id area d t v ow now ≠ .ok r) := by
  intro tr id area d t v ow now
  refine ⟨?_, ?_, ?_⟩
  · intro hlen
    unfold ulpin_treasury.register_land_parcel
    rw [if_neg (by omega), if_pos hlen]
  · intro h32 h64 ha
    unfold ulpin_treasury.register_land_parcel
    rw [if_neg (by omega), if_neg (by omega), if_pos ha]
  · intro hc r hok
    obtain ⟨tr2, p⟩ := r
    obtain ⟨hA, hB, hC, -⟩ := register_ok_shape hok
    omega

/-- Witness for claim C6 (amended): a 65-byte identifier is rejected with
InvalidULPINLength, and a 32-byte identifier with area 0 is rejected with
InvalidArea. -/
theorem claim_C6_witness :
    ulpin_treasury.register_land_parcel treasuryZero (List.replicate 65 66) 5 [] [] [] 7 0 =
      .err .InvalidULPINLength ∧
    ulpin_treasury.register_land_parcel treasuryZero (List.replicate 32 66) 0 [] [] [] 7 0 =
      .err .InvalidArea := by
  exact ⟨(claim_C6_register_rejections treasuryZero (List.replicate 65 66) 5 [] [] [] 7 0).1
      (by decide),
    (claim_C6_register_rejections treasuryZero (List.replicate 32 66) 0 [] [] [] 7 0).2.1
      (by decide) (by decide) rfl⟩

/-- Claim C9 counterexample: two distinct identifiers of at most 64 bytes
(33 times byte 65, versus 32 times byte 65 followed by byte 66) share their
first 32 bytes and therefore derive identical parcel PDA seed material —
the derivation is not injective on identifiers up to 64 bytes. -/
theorem claim_C9_counterexample :
    ulpin_treasury.parcelSeeds (List.replicate 33 65) =
      ulpin_treasury.parcelSeeds (List.replicate 32 65 ++ [66]) ∧
    List.replicate 33 65 ≠ List.replicate 32 65 ++ [66] ∧
    (List.replicate 33 65).length ≤ 64 ∧
    (List.replicate 32 65 ++ [66]).length ≤ 64 := by
  exact ⟨by decide, by decide, by decide, by decide⟩

/-- Claim C9 (amended): the parcel address seed material consists of the
domain tag together with only the FIRST 32 bytes of the identifier; for
identifiers of at least 32 bytes the derivation is injective exactly on
that 32-byte prefix, and identifiers shorter than 32 bytes are outside the
domain (the seed slice panics, modelled as none). -/
theorem claim_C9_seed_prefix_injectivity :
    ∀ (id1 id2 : List Nat), 32 ≤ id1.length → 32 ≤ id2.length →
      ((ulpin_treasury.parcelSeeds id1 = ulpin_treasury.parcelSeeds id2) ↔
        id1.take 32 = id2.take 32) ∧
      (∀ id : List Nat, id.length < 32 → ulpin_treasury.parcelSeeds id = none) := by
  intro id1 id2 h1 h2
  constructor
  · unfold ulpin_treasury.parcelSeeds
    rw [if_pos h1, if_pos h2]
    simp
  · intro id hid
    unfold ulpin_treasury.parcelSeeds
    rw [if_neg (by omega)]

/-- Witness for claim C9 (amended): the colliding pair of the
counterexample satisfies the prefix characterisation. -/
theorem claim_C9_witness :
    (ulpin_treasury.parcelSeeds (List.replicate 33 65) =
      ulpin_treasury.parcelSeeds (List.replicate 32 65 ++ [66])) ↔
      (List.replicate 33 65).take 32 = (List.replicate 32 65 ++ [66]).take 32 :=
  (claim_C9_seed_prefix_injectivity (List.replicate 33 65)
    (List.replicate 32 65 ++ [66]) (by decide) (by decide)).1

/-- Claim C10: register_land_parcel is not total over inputs passing its
explicit checks (identifier at most 64 bytes, positive area): it panics
exactly when the identifier is shorter than 32 bytes (the PDA seed slice is
out of bounds) or a location label exceeds 32 bytes (the unchecked copy
into a 32-byte array aborts), and under the unstated precondition —
identifier at least 32 bytes, each label at most 32 bytes — it completes
normally. -/
theorem claim_C10_register_panic_domain :
    ∀ (tr : ulpin_treasury.Treasury) (id : List Nat) (area : Nat)
      (d t v : List Nat) (ow : Nat) (now : Int),
      id.length ≤ 64 → 0 < area →
      ((ulpin_treasury.register_land_parcel tr id area d t v ow now = .panicked) ↔
        (id.length < 32 ∨ 32 < d.length ∨ 32 < t.length ∨ 32 < v.length)) ∧
      (32 ≤ id.length → d.length ≤ 32 → t.length ≤ 32 → v.length ≤ 32 →
        ulpin_treasury.register_land_parcel tr id area d t v ow now =
          .ok ({ tr with land_parcel_count := wrap64 (tr.land_parcel_count + 1) },
               mkParcel id area d t v ow now)) := by
  intro tr id area d t v ow now hlen harea
  constructor
  · unfold ulpin_treasury.register_land_parcel
    split_ifs with g1 g2 g3 g4
    · exact iff_of_true rfl (Or.inl g1)
    · omega
    · omega
    · exact iff_of_true rfl (Or.inr g4)
    · refine iff_of_false (by simp) ?_
      push_neg at g4
      omega
  · intro h32 hd ht hv
    unfold ulpin_treasury.register_land_parcel
    rw [if_neg (by omega), if_neg (by omega), if_neg (by omega), if_neg (by omega)]
    rfl

/-- Witness for claim C10: a 31-byte identifier panics even with valid
area and labels, while a 32-byte identifier with short labels registers
normally. -/
theorem claim_C10_witness :
    ulpin_treasury.register_land_parcel treasuryZero (List.replicate 31 65) 5 [] [] [] 7 0 =
      .panicked ∧
    ulpin_treasury.register_land_parcel treasuryZero (List.replicate 32 65) 5 [] [] [] 7 0 =
      .ok ({ treasuryZero with
              land_parcel_count := wrap64 (treasuryZero.land_parcel_count + 1) },
           mkParcel (List.replicate 32 65) 5 [] [] [] 7 0) := by
  refine ⟨(claim_C10_register_panic_domain treasuryZero (List.replicate 31 65) 5 [] [] [] 7 0
      (by decide) (by decide)).1.mpr (by decide), ?_⟩
  exact (claim_C10_register_panic_domain treasuryZero (List.replicate 32 65) 5 [] [] [] 7 0
      (by decide) (by decide)).2 (by decide) (by decide) (by decide) (by decide)

/-- Claim C4: for every positive amount, cross_chain_transfer creates a
Pending record with the caller as sender, initiated_at the current time and
no confirmation timestamp; confirm_transfer on it yields a Completed record
stamped with the confirmation time; a second confirm_transfer fails with
TransferNotPending; and in every record state reachable by these
operations, confirmed_at is set if and only if the status is Completed. -/
theorem claim_C4_transfer_lifecycle :
    ∀ (bridge : ulpin_bridge.Bridge) (amount sender : Nat) (now now2 now3 : Int),
      0 < amount →
      (ulpin_bridge.cross_chain_transfer bridge amount sender now =
        .ok ({ bridge with total_transfers := wrap64 (bridge.total_transfers + 1) },
             initRec amount sender now)) ∧
      (initRec amount sender now).status = .Pending ∧
      (initRec amount sender now).sender = sender ∧
      (initRec amount sender now).timestamp = now ∧
      (initRec amount sender now).confirmation_timestamp = none ∧
      (ulpin_bridge.confirm_transfer (initRec amount sender now) now2 =
        .ok (confRec amount sender now now2)) ∧
      (confRec amount sender now now2).status = .Completed ∧
      (confRec amount sender now now2).confirmation_timestamp = some now2 ∧
      (ulpin_bridge.confirm_transfer (confRec amount sender now now2) now3 =
        .err .TransferNotPending) ∧
      (∀ s, ulpin_bridge.TransferReachable s → ∀ r, s = some r →
        (r.confirmation_timestamp.isSome = true ↔ r.status = .Completed)) := by
  intro bridge amount sender now now2 now3 ha
  refine ⟨?_, rfl, rfl, rfl, rfl, rfl, rfl, rfl, rfl, ?_⟩
  · unfold ulpin_bridge.cross_chain_transfer
    rw [if_neg (by omega)]
    rfl
  · intro s hs
    induction hs with
    | init => intro r hr; exact Option.noConfusion hr
    | step s s2 hreach hstep ih =>
      cases hstep with
      | create bridge0 amount0 sender0 nowc b2 r hok =>
        intro r0 hr0
        cases Option.some.inj hr0
        unfold ulpin_bridge.cross_chain_transfer at hok
        split_ifs at hok with hg
        simp only [Outcome.ok.injEq, Prod.mk.injEq] at hok
        rw [← hok.2]
        simp
      | confirm r1 r2 nowc hok =>
        intro r0 hr0
        cases Option.some.inj hr0
        unfold ulpin_bridge.confirm_transfer at hok
        split_ifs at hok with hg
        simp only [Outcome.ok.injEq] at hok
        rw [← hok]
        simp

/-- Witness for claim C4: the lifecycle at amount 50 — creation at time
1000, confirmation at time 2000, failing re-confirmation at time 3000. -/
theorem claim_C4_witness :
    ulpin_bridge.cross_chain_transfer bridgeZero 50 7 1000 =
      .ok ({ bridgeZero with total_transfers := wrap64 (bridgeZero.total_transfers + 1) },
           initRec 50 7 1000) ∧
    ulpin_bridge.confirm_transfer (initRec 50 7 1000) 2000 =
      .ok (confRec 50 7 1000 2000) ∧
    ulpin_bridge.confirm_transfer (confRec 50 7 1000 2000) 3000 =
      .err .TransferNotPending := by
  have h := claim_C4_transfer_lifecycle bridgeZero 50 7 1000 2000 3000 (by decide)
  exact ⟨h.1, h.2.2.2.2.2.1, h.2.2.2.2.2.2.2.2.1⟩
